import Mathlib

/-!
Verification of the NFC-authenticated file sharing service (src/main.rs).

The program is a single Rust binary.  Its authorization core persists a
session expiry instant into a state file as the text `YYYY-MM-DD HH:MM:SS`
(written by `enable_file_sharing`, line 208), re-validates it on every loop
tick (`check_auth_state`, line 331), and revokes access by deleting the
record and tightening OS-level permissions (`disable_file_sharing`,
line 266).  Token acquisition (`read_card_uid`, line 108) shells out to a
detector and folds sentinel outputs into `none`.

Shallow embedding notes:
* Civil datetimes are a seven-field structure `DT` (year, month, day, hour,
  minute, second, nanosecond).  The on-disk format and its parser model
  chrono `format`/`parse_from_str` with the fixed pattern
  `%Y-%m-%d %H:%M:%S` — chrono is a library dependency, not repository
  code, so it is modelled here for the regime the format covers:
  four-digit years (0–9999), no sign, seconds 0–59 (second precision;
  a parsed value always has nanosecond 0).  Calendar validity
  (month range, month lengths with Gregorian leap years, time-of-day
  ranges) mirrors chrono `NaiveDate::from_ymd_opt` and
  `NaiveTime::from_hms_opt`.
* chrono `NaiveDateTime` ordering is lexicographic on
  (date, time-of-day, subsecond); `DT.key` is an order-preserving
  injection of that ordering into `Nat` for calendar-valid values,
  and comparisons in the embedded code use it.
* The filesystem cell holding the record (`AUTH_STATE`) is modelled as
  `RecordFile`: absent, present-but-unreadable (read returns an I/O
  error), or present with string contents.  `fs::remove_file` on an
  existing path and `fs::write` are modelled as succeeding, and the
  OS commands run through `Command` (chmod / chown / usermod /
  systemctl) are modelled as spawnable (the program discards their
  exit status), so only the record read can fail, matching the `?`
  operators in the source.
* `SysState` carries the record cell plus the observable side-effect
  state the commands drive: the last permission mode and owner applied
  to the share directory, whether the `fileuser` account is locked, a
  count of smbd restarts, and the audit log as a list of messages
  (timestamps of log lines are not modelled).
-/

namespace NFCShare

/-- Digit test on characters, as in the byte comparison `48 ≤ c ≤ 57`. -/
def isDigitC (c : Char) : Bool := 48 ≤ c.toNat && c.toNat ≤ 57

/-- Numeric value of a digit character. -/
def digitVal (c : Char) : Nat := c.toNat - 48

/-- Whitespace test for the ends-trimming done by Rust `str::trim`
(restricted to the ASCII whitespace that can occur in the detector and
record strings). -/
def isWsC (c : Char) : Bool := c = ' ' || c = '\t' || c = '\n' || c = '\r'

/-- Trim whitespace from both ends, as Rust `str::trim`. -/
def trimChars (s : List Char) : List Char :=
  ((s.dropWhile isWsC).reverse.dropWhile isWsC).reverse

/-- Civil datetime, the embedding of chrono `NaiveDateTime`. -/
structure DT where
  year : Nat
  month : Nat
  day : Nat
  hour : Nat
  minute : Nat
  second : Nat
  nano : Nat
deriving DecidableEq, Repr

/-- Gregorian leap-year rule, as chrono uses for `NaiveDate`. -/
def isLeap (y : Nat) : Bool := y % 4 == 0 && (y % 100 != 0 || y % 400 == 0)

/-- Length of a month, as chrono `NaiveDate` month lengths. -/
def daysInMonth (y m : Nat) : Nat :=
  if m = 2 then (if isLeap y then 29 else 28)
  else if m = 4 ∨ m = 6 ∨ m = 9 ∨ m = 11 then 30 else 31

/-- Calendar validity of the six civil fields, as checked by chrono
`NaiveDate::from_ymd_opt` and `NaiveTime::from_hms_opt`. -/
def validFields (y mo d h mi s : Nat) : Bool :=
  decide (1 ≤ mo) && decide (mo ≤ 12) && decide (1 ≤ d) &&
  decide (d ≤ daysInMonth y mo) && decide (h < 24) && decide (mi < 60) &&
  decide (s < 60)

/-- Field validity of a `DT` as a proposition. -/
def DT.ValidF (d : DT) : Prop :=
  validFields d.year d.month d.day d.hour d.minute d.second = true

/-- A `DT` representable in the on-disk format: calendar-valid with a
four-digit year. -/
def DT.Valid (d : DT) : Prop := d.ValidF ∧ d.year < 10000

instance (d : DT) : Decidable d.ValidF := by unfold DT.ValidF; infer_instance

instance (d : DT) : Decidable d.Valid := by unfold DT.Valid; infer_instance

/-- Order-preserving injection of the lexicographic
(date, time, subsecond) ordering of chrono `NaiveDateTime` into `Nat`,
for calendar-valid values.  `a.key < b.key` embeds `a < b`. -/
def DT.key (d : DT) : Nat :=
  (((((d.year * 13 + d.month) * 32 + d.day) * 24 + d.hour) * 60 + d.minute)
      * 60 + d.second) * 2000000000 + d.nano

/-- Truncation to second precision: what survives the textual record. -/
def truncSec (d : DT) : DT :=
  ⟨d.year, d.month, d.day, d.hour, d.minute, d.second, 0⟩

/-- Two-digit zero-padded decimal rendering, as chrono `%m %d %H %M %S`. -/
def pad2 (n : Nat) : List Char :=
  [Nat.digitChar (n / 10 % 10), Nat.digitChar (n % 10)]

/-- Four-digit zero-padded decimal rendering, as chrono `%Y` for years
0–9999. -/
def pad4 (n : Nat) : List Char :=
  [Nat.digitChar (n / 1000 % 10), Nat.digitChar (n / 100 % 10),
   Nat.digitChar (n / 10 % 10), Nat.digitChar (n % 10)]

/-- Rendering with the format string `%Y-%m-%d %H:%M:%S` used at
src/main.rs line 214 (and line 59); subseconds are dropped. -/
def formatDT (d : DT) : List Char :=
  pad4 d.year ++ ('-' :: (pad2 d.month ++ ('-' :: (pad2 d.day ++
    (' ' :: (pad2 d.hour ++ (':' :: (pad2 d.minute ++
      (':' :: pad2 d.second)))))))))

/-- Longest leading run of digit characters, and the rest. -/
def spanDigits : List Char → List Char × List Char
  | [] => ([], [])
  | c :: cs =>
    if isDigitC c then
      ((spanDigits cs).1.cons c, (spanDigits cs).2)
    else ([], c :: cs)

/-- Decimal value of a digit string. -/
def digitsVal (l : List Char) : Nat :=
  l.foldl (fun a c => a * 10 + digitVal c) 0

/-- Parse `%Y`: one or more digits, greedily. -/
def parseYear (s : List Char) : Option (Nat × List Char) :=
  match spanDigits s with
  | ([], _) => none
  | (ds, r) => some (digitsVal ds, r)

/-- Parse a one-or-two-digit numeric field (`%m %d %H %M %S`),
greedily. -/
def parse2 : List Char → Option (Nat × List Char)
  | [] => none
  | c :: cs =>
    if isDigitC c then
      match cs with
      | c2 :: cs2 =>
        if isDigitC c2 then some (digitVal c * 10 + digitVal c2, cs2)
        else some (digitVal c, cs)
      | [] => some (digitVal c, [])
    else none

/-- Consume one expected literal character. -/
def expectC (ch : Char) : List Char → Option (List Char)
  | [] => none
  | c :: cs => if c = ch then some cs else none

/-- Embedding of
`NaiveDateTime::parse_from_str(s, "%Y-%m-%d %H:%M:%S")`
(src/main.rs lines 59 and 338): the whole input must be consumed and the
fields must form a calendar-valid datetime; the result is at second
precision. -/
def parseDT (s : List Char) : Option DT := do
  let (y, s1) ← parseYear s
  let s2 ← expectC '-' s1
  let (mo, s3) ← parse2 s2
  let s4 ← expectC '-' s3
  let (da, s5) ← parse2 s4
  let s6 ← expectC ' ' s5
  let (h, s7) ← parse2 s6
  let s8 ← expectC ':' s7
  let (mi, s9) ← parse2 s8
  let s10 ← expectC ':' s9
  let (se, s11) ← parse2 s10
  if s11.isEmpty && validFields y mo da h mi se then
    some ⟨y, mo, da, h, mi, se, 0⟩
  else none

/-- The access window, `TIMEOUT_MINUTES` (src/main.rs line 15). -/
def TIMEOUT_MINUTES : Nat := 10

/-- The static allow-list `AUTHORIZED_UIDS` (src/main.rs line 19). -/
def AUTHORIZED_UIDS : List String := ["79 DE 3F 02"]

/-- Successor day in the civil calendar. -/
def nextDay (d : DT) : DT :=
  if d.day < daysInMonth d.year d.month then { d with day := d.day + 1 }
  else if d.month < 12 then { d with month := d.month + 1, day := 1 }
  else { d with year := d.year + 1, month := 1, day := 1 }

/-- Add a number of days. -/
def addDays (d : DT) : Nat → DT
  | 0 => d
  | n + 1 => nextDay (addDays d n)

/-- Embedding of `now + chrono::Duration::minutes(m)` on a
`NaiveDateTime` (src/main.rs line 211): carry minutes into hours and
hours into days; subseconds are untouched. -/
def addMinutes (d : DT) (m : Nat) : DT :=
  let tm := d.minute + m
  let th := d.hour + tm / 60
  addDays { d with minute := tm % 60, hour := th % 24 } (th / 24)

/-- The `AUTH_STATE` file cell: absent, present but unreadable
(`fs::read_to_string` fails), or present with contents. -/
inductive RecordFile where
  | absent
  | unreadable
  | content (s : String)
deriving DecidableEq, Repr

/-- Observable system state driven by the program: the record cell and
the side-effect state of the share (mode and owner last applied to
`SHARE_PATH`, the `fileuser` lock, smbd restart count, audit log
messages). -/
structure SysState where
  record : RecordFile
  shareMode : Nat
  shareOwner : String
  fileuserLocked : Bool
  smbdRestarts : Nat
  log : List String
deriving DecidableEq, Repr

/-- Embedding of `disable_file_sharing` (src/main.rs lines 266–296):
remove the record if it exists (so the cell is absent afterwards in
every case), chmod 700, chown pi:pi, lock `fileuser`, restart smbd,
append the audit message. -/
def disable_file_sharing (s : SysState) : SysState :=
  { record := RecordFile.absent
    shareMode := 700
    shareOwner := "pi:pi"
    fileuserLocked := true
    smbdRestarts := s.smbdRestarts + 1
    log := s.log ++ ["File sharing disabled"] }

/-- Embedding of `enable_file_sharing` (src/main.rs lines 208–264):
overwrite the record with `now + TIMEOUT_MINUTES` rendered in the fixed
format, chmod 777 then 770 (last applied: 770), chown pi:fileuser,
unlock `fileuser`, restart smbd, append the audit message. -/
def enable_file_sharing (now : DT) (s : SysState) : SysState :=
  { record := RecordFile.content (String.mk (formatDT (addMinutes now TIMEOUT_MINUTES)))
    shareMode := 770
    shareOwner := "pi:fileuser"
    fileuserLocked := false
    smbdRestarts := s.smbdRestarts + 1
    log := s.log ++ ["File sharing enabled for 10 minutes"] }

/-- Embedding of `check_auth_state` (src/main.rs lines 331–354).  The
result carries the returned Bool, the state after the call, and how many
times `disable_file_sharing` was invoked; `Except.error` is the
propagated I/O error from `fs::read_to_string` (line 336). -/
def check_auth_state (now : DT) (s : SysState) :
    Except Unit (Bool × SysState × Nat) :=
  match s.record with
  | RecordFile.absent => Except.ok (false, s, 0)
  | RecordFile.unreadable => Except.error ()
  | RecordFile.content str =>
    match parseDT (trimChars str.data) with
    | some expiration =>
      if expiration.key < now.key then
        Except.ok (false, disable_file_sharing s, 1)
      else
        Except.ok (true, s, 0)
    | none => Except.ok (false, disable_file_sharing s, 1)

/-- Embedding of `read_card_uid` (src/main.rs lines 108–126).  The
argument is the detector stdout when the subprocess ran
(`none` models the spawn-failure arm `Err(_) => None`). -/
def read_card_uid (out : Option String) : Option String :=
  match out with
  | none => none
  | some o =>
    let stdout := String.mk (trimChars o.data)
    if !stdout.isEmpty && stdout != "NO_CARD" &&
       stdout != "ERROR" && stdout != "NO_READERS" &&
       stdout != "CONNECT_ERROR" &&
       !(List.isPrefixOf ("EXCEPTION:".data) stdout.data) then
      some stdout
    else none

/-- The allow-list membership test `AUTHORIZED_UIDS.contains(&uid)`
(src/main.rs line 83). -/
def is_authorized (uid : String) : Bool := AUTHORIZED_UIDS.contains uid

/-- Embedding of the card-handling arm of the main loop
(src/main.rs lines 80–90): log, then grant for an allow-listed token
and revoke otherwise. -/
def handle_card (now : DT) (uid : String) (s : SysState) : SysState :=
  if is_authorized uid then
    enable_file_sharing now { s with log := s.log ++ ["Authorized card: " ++ uid] }
  else
    disable_file_sharing { s with log := s.log ++ ["Unauthorized card: " ++ uid] }

/-- Embedding of the record-relevant part of startup
(src/main.rs lines 35–38): `setup_system` does not touch the record,
then `disable_file_sharing()` runs unconditionally. -/
def startup (s : SysState) : SysState := disable_file_sharing s

/-- Embedding of one iteration of the main polling loop
(src/main.rs lines 52–99): `check_auth_state()?` first — an I/O error
propagates out of `main` and ends the loop — then, when not
authenticated, poll the detector and handle any card. -/
def loop_tick (now : DT) (card : Option String) (s : SysState) :
    Except Unit SysState :=
  match check_auth_state now s with
  | Except.error e => Except.error e
  | Except.ok (true, s1, _) => Except.ok s1
  | Except.ok (false, s1, _) =>
    match read_card_uid card with
    | some uid => Except.ok (handle_card now uid s1)
    | none => Except.ok s1

/-! ### Digit-level lemmas -/

theorem isDigitC_digitChar : ∀ k, k < 10 → isDigitC (Nat.digitChar k) = true := by
  decide

theorem digitVal_digitChar : ∀ k, k < 10 → digitVal (Nat.digitChar k) = k := by
  decide

theorem isWsC_digitChar : ∀ k, k < 10 → isWsC (Nat.digitChar k) = false := by
  decide

theorem spanDigits_cons_digit {c : Char} (h : isDigitC c = true) (l : List Char) :
    spanDigits (c :: l) = ((spanDigits l).1.cons c, (spanDigits l).2) := by
  simp [spanDigits, h]

theorem spanDigits_cons_nondigit {c : Char} (h : isDigitC c = false) (l : List Char) :
    spanDigits (c :: l) = ([], c :: l) := by
  simp [spanDigits, h]

theorem spanDigits_pad4 (y : Nat) (R : List Char) :
    spanDigits (pad4 y ++ ('-' :: R)) = (pad4 y, '-' :: R) := by
  have h1 := isDigitC_digitChar (y / 1000 % 10) (Nat.mod_lt _ (by omega))
  have h2 := isDigitC_digitChar (y / 100 % 10) (Nat.mod_lt _ (by omega))
  have h3 := isDigitC_digitChar (y / 10 % 10) (Nat.mod_lt _ (by omega))
  have h4 := isDigitC_digitChar (y % 10) (Nat.mod_lt _ (by omega))
  have hd : isDigitC '-' = false := rfl
  simp [pad4, spanDigits, h1, h2, h3, h4, hd]

theorem parseYear_pad4 {y : Nat} (hy : y < 10000) (R : List Char) :
    parseYear (pad4 y ++ ('-' :: R)) = some (y, '-' :: R) := by
  have h1 := digitVal_digitChar (y / 1000 % 10) (Nat.mod_lt _ (by omega))
  have h2 := digitVal_digitChar (y / 100 % 10) (Nat.mod_lt _ (by omega))
  have h3 := digitVal_digitChar (y / 10 % 10) (Nat.mod_lt _ (by omega))
  have h4 := digitVal_digitChar (y % 10) (Nat.mod_lt _ (by omega))
  rw [parseYear, spanDigits_pad4]
  simp only [pad4, digitsVal, List.foldl, h1, h2, h3, h4]
  have : ((y / 1000 % 10 * 10 + y / 100 % 10) * 10 + y / 10 % 10) * 10 + y % 10 = y := by
    omega
  simp [this]

theorem parse2_pad2 {n : Nat} (hn : n < 100) (R : List Char) :
    parse2 (pad2 n ++ R) = some (n, R) := by
  have h1 := isDigitC_digitChar (n / 10 % 10) (Nat.mod_lt _ (by omega))
  have h2 := isDigitC_digitChar (n % 10) (Nat.mod_lt _ (by omega))
  have v1 := digitVal_digitChar (n / 10 % 10) (Nat.mod_lt _ (by omega))
  have v2 := digitVal_digitChar (n % 10) (Nat.mod_lt _ (by omega))
  simp only [pad2, List.cons_append, List.nil_append, parse2, h1, h2, v1, v2,
    if_true]
  have : n / 10 % 10 * 10 + n % 10 = n := by omega
  simp [this]

theorem parse2_pad2_nil {n : Nat} (hn : n < 100) :
    parse2 (pad2 n) = some (n, []) := by
  have h := parse2_pad2 hn []
  simpa using h

/-! ### Round-trip: parsing a formatted datetime -/

theorem validFields_bounds {y mo d h mi s : Nat}
    (hf : validFields y mo d h mi s = true) :
    1 ≤ mo ∧ mo ≤ 12 ∧ 1 ≤ d ∧ d ≤ daysInMonth y mo ∧ h < 24 ∧ mi < 60 ∧
      s < 60 := by
  simp only [validFields, Bool.and_eq_true, decide_eq_true_eq] at hf
  tauto

theorem daysInMonth_le (y m : Nat) : daysInMonth y m ≤ 31 := by
  unfold daysInMonth
  split
  · split <;> omega
  · split <;> omega

theorem one_le_daysInMonth (y m : Nat) : 1 ≤ daysInMonth y m := by
  unfold daysInMonth
  split
  · split <;> omega
  · split <;> omega

/-- Parsing recovers a formatted calendar-valid datetime at second
precision. -/
theorem parseDT_formatDT {d : DT} (hV : d.Valid) :
    parseDT (formatDT d) = some (truncSec d) := by
  obtain ⟨hf, hy⟩ := hV
  obtain ⟨h1, h2, h3, h4, h5, h6, h7⟩ := validFields_bounds hf
  have hmo : d.month < 100 := by omega
  have hda : d.day < 100 := have := daysInMonth_le d.year d.month; by omega
  have hh : d.hour < 100 := by omega
  have hmi : d.minute < 100 := by omega
  have hs : d.second < 100 := by omega
  have hf2 : validFields d.year d.month d.day d.hour d.minute d.second = true := hf
  simp [parseDT, formatDT, parseYear_pad4 hy, parse2_pad2 hmo, parse2_pad2 hda,
    parse2_pad2 hh, parse2_pad2 hmi, parse2_pad2_nil hs, expectC, hf2, truncSec]

/-! ### Trimming a formatted datetime is the identity -/

theorem dropWhile_eq_self_of_head {p : Char → Bool} {l : List Char}
    (h : ∀ c, l.head? = some c → p c = false) : l.dropWhile p = l := by
  cases l with
  | nil => rfl
  | cons c t => rw [List.dropWhile_cons, h c rfl]; simp

theorem trimChars_eq_self {l : List Char}
    (hhead : ∀ c, l.head? = some c → isWsC c = false)
    (hlast : ∀ c, l.getLast? = some c → isWsC c = false) :
    trimChars l = l := by
  unfold trimChars
  rw [dropWhile_eq_self_of_head hhead]
  rw [dropWhile_eq_self_of_head (fun c hc => hlast c (by rwa [List.head?_reverse] at hc))]
  exact List.reverse_reverse l

theorem head?_formatDT (d : DT) :
    (formatDT d).head? = some (Nat.digitChar (d.year / 1000 % 10)) := by
  simp [formatDT, pad4]

theorem getLast?_formatDT (d : DT) :
    (formatDT d).getLast? = some (Nat.digitChar (d.second % 10)) := by
  simp [formatDT, pad4, pad2, List.getLast?_append]

theorem trimChars_formatDT (d : DT) : trimChars (formatDT d) = formatDT d := by
  apply trimChars_eq_self
  · intro c hc
    rw [head?_formatDT] at hc
    cases hc
    exact isWsC_digitChar _ (Nat.mod_lt _ (by omega))
  · intro c hc
    rw [getLast?_formatDT] at hc
    cases hc
    exact isWsC_digitChar _ (Nat.mod_lt _ (by omega))

/-! ### Validity is preserved by the ten-minute shift -/

theorem nextDay_validF {d : DT} (h : d.ValidF) : (nextDay d).ValidF := by
  obtain ⟨h1, h2, h3, h4, h5, h6, h7⟩ := validFields_bounds h
  unfold nextDay
  split
  · simp only [DT.ValidF, validFields, Bool.and_eq_true, decide_eq_true_eq] at h ⊢
    omega
  · split
    · have := one_le_daysInMonth d.year (d.month + 1)
      simp only [DT.ValidF, validFields, Bool.and_eq_true, decide_eq_true_eq] at h ⊢
      omega
    · have := one_le_daysInMonth (d.year + 1) 1
      simp only [DT.ValidF, validFields, Bool.and_eq_true, decide_eq_true_eq] at h ⊢
      omega

theorem nextDay_year_le (d : DT) : (nextDay d).year ≤ d.year + 1 := by
  unfold nextDay
  split
  · simp
  · split <;> simp

theorem addDays_validF {d : DT} (h : d.ValidF) : ∀ n, (addDays d n).ValidF
  | 0 => h
  | n + 1 => nextDay_validF (addDays_validF h n)

theorem addDays_year_le (d : DT) : ∀ n, (addDays d n).year ≤ d.year + n
  | 0 => Nat.le_refl _
  | n + 1 => by
    have h1 := nextDay_year_le (addDays d n)
    have h2 := addDays_year_le d n
    simp only [addDays]
    omega

theorem validF_set_time {d : DT} (h : d.ValidF) {h2 mi2 : Nat}
    (hh : h2 < 24) (hm : mi2 < 60) :
    ({ d with hour := h2, minute := mi2 } : DT).ValidF := by
  simp only [DT.ValidF, validFields, Bool.and_eq_true, decide_eq_true_eq] at h ⊢
  omega

theorem addMinutes_TIMEOUT_valid {d : DT} (h : d.ValidF)
    (hy : d.year + 1 < 10000) : (addMinutes d TIMEOUT_MINUTES).Valid := by
  obtain ⟨h1, h2, h3, h4, h5, h6, h7⟩ := validFields_bounds h
  have hb : ({ d with
      minute := (d.minute + TIMEOUT_MINUTES) % 60
      hour := (d.hour + (d.minute + TIMEOUT_MINUTES) / 60) % 24 } : DT).ValidF :=
    validF_set_time h (Nat.mod_lt _ (by omega)) (Nat.mod_lt _ (by omega))
  have hdays : (d.hour + (d.minute + TIMEOUT_MINUTES) / 60) / 24 ≤ 1 := by
    unfold TIMEOUT_MINUTES
    omega
  constructor
  · exact addDays_validF hb _
  · have hy2 := addDays_year_le
      ({ d with
        minute := (d.minute + TIMEOUT_MINUTES) % 60
        hour := (d.hour + (d.minute + TIMEOUT_MINUTES) / 60) % 24 } : DT)
      ((d.hour + (d.minute + TIMEOUT_MINUTES) / 60) / 24)
    simp only [addMinutes]
    simp only [DT.year] at hy2 ⊢
    omega

theorem truncSec_eq_self {d : DT} (h : d.nano = 0) : truncSec d = d := by
  cases d
  simp only [truncSec, DT.mk.injEq, true_and]
  simp_all

/-! ### Concrete fixtures used by counterexamples and witnesses -/

/-- A concrete instant, used as both an expiry and a clock reading. -/
def dtE : DT := ⟨2025, 6, 15, 12, 0, 0, 0⟩

/-- One second after `dtE`. -/
def dtLater : DT := ⟨2025, 6, 15, 12, 0, 1, 0⟩

/-- A far-future instant. -/
def dtFar : DT := ⟨2030, 1, 1, 0, 0, 0, 0⟩

/-- A system state with the given record cell and revoked side effects. -/
def mkState (r : RecordFile) : SysState := ⟨r, 700, "pi:pi", true, 0, []⟩

/-- A state whose record holds unparsable text. -/
def garbState : SysState := mkState (RecordFile.content "garbage")

/-! ### Claims -/

/-- Claim C1, counterexample: at the boundary expiry `E = now` (here the
instant `dtE`, persisted in the exact record format) the validity check
returns authorized and performs zero Revokes — the code at
src/main.rs line 341 tests the strict `now > expiration`, so an expiry
equal to the current instant is still treated as authorized, refuting
the claim for `E ≤ now`. -/
theorem claim_C1_counterexample :
    dtE.key ≤ dtE.key ∧
    check_auth_state dtE (mkState (RecordFile.content (String.mk (formatDT dtE))))
      = Except.ok (true, mkState (RecordFile.content (String.mk (formatDT dtE))), 0) :=
  ⟨Nat.le_refl _, rfl⟩

/-- Claim C1, amended: for every expiry instant E strictly earlier than
the current instant, the validity check on a persisted record containing
E returns not-authorized and invokes Revoke exactly once, removing the
record; an expiry exactly equal to the current instant is instead
treated as authorized. -/
theorem claim_C1_theorem {E now : DT} {s : SysState}
    (hV : E.Valid) (hn : E.nano = 0)
    (hrec : s.record = RecordFile.content (String.mk (formatDT E)))
    (hlt : E.key < now.key) :
    check_auth_state now s = Except.ok (false, disable_file_sharing s, 1) ∧
    (disable_file_sharing s).record = RecordFile.absent := by
  have hparse : parseDT (trimChars (String.mk (formatDT E)).data) = some E := by
    show parseDT (trimChars (formatDT E)) = some E
    rw [trimChars_formatDT, parseDT_formatDT hV, truncSec_eq_self hn]
  refine ⟨?_, rfl⟩
  simp only [check_auth_state, hrec, hparse]
  simp [hlt]

/-- Claim C1, witness: the amended theorem applied at the concrete
expiry `dtE` with the clock one second later. -/
theorem claim_C1_witness :
    check_auth_state dtLater (mkState (RecordFile.content (String.mk (formatDT dtE))))
      = Except.ok (false,
          disable_file_sharing (mkState (RecordFile.content (String.mk (formatDT dtE)))), 1) ∧
    (disable_file_sharing (mkState (RecordFile.content (String.mk (formatDT dtE))))).record
      = RecordFile.absent :=
  claim_C1_theorem (by decide) rfl rfl (by decide)

/-- Claim C2, counterexample: a well-formed persisted record whose
expiry (`dtFar`) is strictly in the future survives until startup, but
startup (src/main.rs line 38) unconditionally calls
`disable_file_sharing`, deleting the record, so the first loop tick
returns not-authorized instead of entering the authenticated branch. -/
theorem claim_C2_counterexample :
    parseDT (trimChars "2030-01-01 00:00:00".data) = some dtFar ∧
    dtE.key < dtFar.key ∧
    check_auth_state dtE (startup (mkState (RecordFile.content "2030-01-01 00:00:00")))
      = Except.ok (false, startup (mkState (RecordFile.content "2030-01-01 00:00:00")), 0) :=
  ⟨rfl, by decide, rfl⟩

/-- Claim C2, amended: startup runs an unconditional Revoke that deletes
any persisted session record, so after startup the record is absent and
the first validity check returns not-authorized — a still-valid
persisted session never yields the authenticated state without a fresh
token presentation. -/
theorem claim_C2_theorem (now : DT) (s : SysState) :
    (startup s).record = RecordFile.absent ∧
    check_auth_state now (startup s) = Except.ok (false, startup s, 0) :=
  ⟨rfl, rfl⟩

/-- Claim C3, counterexample: with the record present but unreadable,
the loop tick propagates the I/O error (the `?` at src/main.rs line 54
returns it from `main`), terminating the polling loop rather than
retrying next tick. -/
theorem claim_C3_counterexample :
    loop_tick dtE none (mkState RecordFile.unreadable) = Except.error () :=
  rfl

/-- Claim C3, amended: if reading the session record fails with an I/O
error during a loop tick, `check_auth_state` propagates the error and
the tick returns it out of the loop (terminating the process via the
`?` in `main`); the program never treats the unreadable record as
still-authorized — the check never returns an authorized result. -/
theorem claim_C3_theorem (now : DT) (card : Option String) (s : SysState)
    (h : s.record = RecordFile.unreadable) :
    check_auth_state now s = Except.error () ∧
    loop_tick now card s = Except.error () ∧
    (∀ s1 n, check_auth_state now s ≠ Except.ok (true, s1, n)) := by
  have hc : check_auth_state now s = Except.error () := by
    simp only [check_auth_state, h]
  refine ⟨hc, ?_, ?_⟩
  · simp only [loop_tick, hc]
  · intro s1 n hcontra
    rw [hc] at hcontra
    exact Except.noConfusion hcontra

/-- Claim C3, witness: the amended theorem applied to a concrete state
with an unreadable record. -/
theorem claim_C3_witness :
    check_auth_state dtE (mkState RecordFile.unreadable) = Except.error () ∧
    loop_tick dtE none (mkState RecordFile.unreadable) = Except.error () ∧
    (∀ s1 n, check_auth_state dtE (mkState RecordFile.unreadable)
      ≠ Except.ok (true, s1, n)) :=
  claim_C3_theorem dtE none (mkState RecordFile.unreadable) rfl

/-- Claim C4: a record whose contents do not parse in the expected
format makes the validity check return not-authorized with exactly one
Revoke; the Revoke removes the record, so a repeated check returns
not-authorized with no further Revoke. -/
theorem claim_C4_theorem (now : DT) (s : SysState) (str : String)
    (hrec : s.record = RecordFile.content str)
    (hparse : parseDT (trimChars str.data) = none) :
    check_auth_state now s = Except.ok (false, disable_file_sharing s, 1) ∧
    (disable_file_sharing s).record = RecordFile.absent ∧
    check_auth_state now (disable_file_sharing s)
      = Except.ok (false, disable_file_sharing s, 0) := by
  refine ⟨?_, rfl, rfl⟩
  simp only [check_auth_state, hrec, hparse]

/-- Claim C4, witness: the theorem applied to the literal record text
`garbage`. -/
theorem claim_C4_witness :
    check_auth_state dtE garbState
      = Except.ok (false, disable_file_sharing garbState, 1) ∧
    (disable_file_sharing garbState).record = RecordFile.absent ∧
    check_auth_state dtE (disable_file_sharing garbState)
      = Except.ok (false, disable_file_sharing garbState, 0) :=
  claim_C4_theorem dtE garbState "garbage" rfl rfl

/-- Claim C5: granting again at time T2 after a grant at T1 overwrites
the record with T2 plus the access window (TIMEOUT_MINUTES = 10),
independent of T1 — the record equals the one a single grant at T2
would have written. -/
theorem claim_C5_theorem (T1 T2 : DT) (s : SysState) (h : T1.key < T2.key) :
    (enable_file_sharing T2 (enable_file_sharing T1 s)).record
      = RecordFile.content (String.mk (formatDT (addMinutes T2 TIMEOUT_MINUTES))) ∧
    (enable_file_sharing T2 (enable_file_sharing T1 s)).record
      = (enable_file_sharing T2 s).record :=
  ⟨rfl, rfl⟩

/-- Claim C5, witness: the theorem applied at two concrete grant
times. -/
theorem claim_C5_witness :
    (enable_file_sharing dtLater (enable_file_sharing dtE (mkState RecordFile.absent))).record
      = RecordFile.content (String.mk (formatDT (addMinutes dtLater TIMEOUT_MINUTES))) ∧
    (enable_file_sharing dtLater (enable_file_sharing dtE (mkState RecordFile.absent))).record
      = (enable_file_sharing dtLater (mkState RecordFile.absent)).record :=
  claim_C5_theorem dtE dtLater (mkState RecordFile.absent) (by decide)

/-- The disjunction of detector outputs the program folds into
`Absent`: empty trimmed line, one of the four sentinels, or the
exception prefix. -/
def sentinelDisj (t : String) : Prop :=
  t = "" ∨ t = "NO_CARD" ∨ t = "ERROR" ∨ t = "NO_READERS" ∨
  t = "CONNECT_ERROR" ∨ List.isPrefixOf ("EXCEPTION:".data) t.data = true

theorem sentinel_cond_true {t : String}
    (h : (!t.isEmpty && t != "NO_CARD" && t != "ERROR" && t != "NO_READERS" &&
      t != "CONNECT_ERROR" &&
      !(List.isPrefixOf ("EXCEPTION:".data) t.data)) = true) :
    ¬ sentinelDisj t := by
  simp only [Bool.and_eq_true, Bool.not_eq_true', bne_iff_ne, ne_eq] at h
  obtain ⟨⟨⟨⟨⟨he, h1⟩, h2⟩, h3⟩, h4⟩, h5⟩ := h
  intro hdis
  rcases hdis with h0 | h0 | h0 | h0 | h0 | h0
  · rw [← String.isEmpty_iff] at h0
    exact absurd h0 (by simp [he])
  · exact h1 h0
  · exact h2 h0
  · exact h3 h0
  · exact h4 h0
  · exact absurd h0 (by simp [h5])

theorem sentinel_cond_false {t : String}
    (h : (!t.isEmpty && t != "NO_CARD" && t != "ERROR" && t != "NO_READERS" &&
      t != "CONNECT_ERROR" &&
      !(List.isPrefixOf ("EXCEPTION:".data) t.data)) = false) :
    sentinelDisj t := by
  simp only [sentinelDisj]
  rcases Bool.and_eq_false_iff.mp h with h5 | h5
  · rcases Bool.and_eq_false_iff.mp h5 with h4 | h4
    · rcases Bool.and_eq_false_iff.mp h4 with h3 | h3
      · rcases Bool.and_eq_false_iff.mp h3 with h2 | h2
        · rcases Bool.and_eq_false_iff.mp h2 with h1 | h1
          · exact Or.inl ((String.isEmpty_iff _).mp (by simpa using h1))
          · exact Or.inr (Or.inl (bne_eq_false_iff_eq.mp h1))
        · exact Or.inr (Or.inr (Or.inl (bne_eq_false_iff_eq.mp h2)))
      · exact Or.inr (Or.inr (Or.inr (Or.inl (bne_eq_false_iff_eq.mp h3))))
    · exact Or.inr (Or.inr (Or.inr (Or.inr (Or.inl (bne_eq_false_iff_eq.mp h4)))))
  · exact Or.inr (Or.inr (Or.inr (Or.inr (Or.inr (by simpa using h5)))))

/-- Claim C6: the token poll yields none exactly when the trimmed
detector line is empty, equals one of the four sentinels, or begins
with the exception prefix; every other line is returned as the trimmed
token identifier, and allow-list membership is verbatim string equality
with the single authorized identifier. -/
theorem claim_C6_theorem (out : String) :
    (read_card_uid (some out) = none ↔ sentinelDisj (String.mk (trimChars out.data))) ∧
    (∀ uid, read_card_uid (some out) = some uid →
      uid = String.mk (trimChars out.data)) ∧
    (∀ uid, is_authorized uid = true ↔ uid = "79 DE 3F 02") := by
  refine ⟨?_, ?_, ?_⟩
  · simp only [read_card_uid]
    split
    · rename_i hcond
      exact iff_of_false (fun hx => Option.noConfusion hx) (sentinel_cond_true hcond)
    · rename_i hcond
      rw [Bool.not_eq_true] at hcond
      exact iff_of_true rfl (sentinel_cond_false hcond)
  · simp only [read_card_uid]
    split
    · intro uid huid
      exact (Option.some.inj huid).symm
    · intro uid huid
      exact Option.noConfusion huid
  · intro uid
    simp [is_authorized, AUTHORIZED_UIDS]

/-- The authorized identifier surrounded by whitespace, as a raw
detector line. -/
def paddedUidLine : String := " 79 DE 3F 02 "

/-- The authorized identifier itself. -/
def authorizedUid : String := "79 DE 3F 02"

/-- The no-card sentinel line. -/
def noCardLine : String := "NO_CARD"

/-- Claim C6, witness: the theorem applied to a padded authorized line
and to a sentinel line. -/
theorem claim_C6_witness :
    authorizedUid = String.mk (trimChars paddedUidLine.data) ∧
    read_card_uid (some noCardLine) = none ∧
    is_authorized authorizedUid = true :=
  ⟨(claim_C6_theorem paddedUidLine).2.1 authorizedUid rfl,
   (claim_C6_theorem noCardLine).1.mpr (Or.inr (Or.inl (by decide))),
   ((claim_C6_theorem noCardLine).2.2 authorizedUid).mpr rfl⟩

/-- Claim C7: an unrecognized token never creates or extends a session
(the record is absent after handling it), and Revoke with no record
present leaves the record absent and only idempotently reapplies the
side effects (same mode, owner, and lock state as a single Revoke). -/
theorem claim_C7_theorem (now : DT) (uid : String) (s : SysState)
    (h : is_authorized uid = false) :
    (handle_card now uid s).record = RecordFile.absent ∧
    (disable_file_sharing s).record = RecordFile.absent ∧
    (disable_file_sharing (disable_file_sharing s)).record
      = (disable_file_sharing s).record ∧
    (disable_file_sharing (disable_file_sharing s)).shareMode
      = (disable_file_sharing s).shareMode ∧
    (disable_file_sharing (disable_file_sharing s)).shareOwner
      = (disable_file_sharing s).shareOwner ∧
    (disable_file_sharing (disable_file_sharing s)).fileuserLocked
      = (disable_file_sharing s).fileuserLocked := by
  refine ⟨?_, rfl, rfl, rfl, rfl, rfl⟩
  simp [handle_card, h, disable_file_sharing]

/-- Claim C7, witness: the theorem applied to a concrete unrecognized
identifier on a state with no record. -/
theorem claim_C7_witness :
    (handle_card dtE "11 22 33 44" (mkState RecordFile.absent)).record
      = RecordFile.absent ∧
    (disable_file_sharing (mkState RecordFile.absent)).record = RecordFile.absent ∧
    (disable_file_sharing (disable_file_sharing (mkState RecordFile.absent))).record
      = (disable_file_sharing (mkState RecordFile.absent)).record ∧
    (disable_file_sharing (disable_file_sharing (mkState RecordFile.absent))).shareMode
      = (disable_file_sharing (mkState RecordFile.absent)).shareMode ∧
    (disable_file_sharing (disable_file_sharing (mkState RecordFile.absent))).shareOwner
      = (disable_file_sharing (mkState RecordFile.absent)).shareOwner ∧
    (disable_file_sharing (disable_file_sharing (mkState RecordFile.absent))).fileuserLocked
      = (disable_file_sharing (mkState RecordFile.absent)).fileuserLocked :=
  claim_C7_theorem dtE "11 22 33 44" (mkState RecordFile.absent) (by decide)

/-- Claim C8: a record holding an expiry strictly later than the
current instant makes the validity check return authorized with the
state untouched (no Revoke, no record change, no side effects). -/
theorem claim_C8_theorem {E now : DT} {s : SysState}
    (hV : E.Valid) (hn : E.nano = 0)
    (hrec : s.record = RecordFile.content (String.mk (formatDT E)))
    (hlt : now.key < E.key) :
    check_auth_state now s = Except.ok (true, s, 0) := by
  have hparse : parseDT (trimChars (String.mk (formatDT E)).data) = some E := by
    show parseDT (trimChars (formatDT E)) = some E
    rw [trimChars_formatDT, parseDT_formatDT hV, truncSec_eq_self hn]
  have hnot : ¬ E.key < now.key := by omega
  simp only [check_auth_state, hrec, hparse]
  simp [hnot]

/-- Claim C8, witness: the theorem applied at the concrete clock `dtE`
with the far-future expiry `dtFar`. -/
theorem claim_C8_witness :
    check_auth_state dtE (mkState (RecordFile.content (String.mk (formatDT dtFar))))
      = Except.ok (true, mkState (RecordFile.content (String.mk (formatDT dtFar))), 0) :=
  claim_C8_theorem (by decide) rfl rfl (by decide)

/-- Claim C9: formatting a datetime representable in the record format
and re-parsing it reproduces the instant at one-second precision; in
particular it is the identity on instants that already carry no
subsecond part. -/
theorem claim_C9_theorem {d : DT} (hV : d.Valid) :
    parseDT (formatDT d) = some (truncSec d) ∧
    (d.nano = 0 → parseDT (formatDT d) = some d) := by
  refine ⟨parseDT_formatDT hV, fun hn => ?_⟩
  rw [parseDT_formatDT hV, truncSec_eq_self hn]

/-- Claim C9, witness: the theorem applied at a concrete leap-day
instant carrying a subsecond part. -/
theorem claim_C9_witness :
    parseDT (formatDT ⟨2024, 2, 29, 23, 59, 59, 123⟩)
      = some (truncSec ⟨2024, 2, 29, 23, 59, 59, 123⟩) ∧
    ((⟨2024, 2, 29, 23, 59, 59, 123⟩ : DT).nano = 0 →
      parseDT (formatDT ⟨2024, 2, 29, 23, 59, 59, 123⟩)
        = some ⟨2024, 2, 29, 23, 59, 59, 123⟩) :=
  claim_C9_theorem (by decide)

/-- Claim C10: every record value written by a grant at a calendar-valid
instant (with the expiry still in the four-digit-year regime of the
format) parses successfully under the exact trim-and-parse pipeline
that the validity check applies, yielding the persisted expiry at
second precision — a self-written record never takes the
corruption path. -/
theorem claim_C10_theorem (now : DT) (s : SysState)
    (hV : now.ValidF) (hy : now.year + 1 < 10000) :
    (enable_file_sharing now s).record
      = RecordFile.content (String.mk (formatDT (addMinutes now TIMEOUT_MINUTES))) ∧
    parseDT (trimChars (String.mk (formatDT (addMinutes now TIMEOUT_MINUTES))).data)
      = some (truncSec (addMinutes now TIMEOUT_MINUTES)) := by
  refine ⟨rfl, ?_⟩
  show parseDT (trimChars (formatDT (addMinutes now TIMEOUT_MINUTES)))
    = some (truncSec (addMinutes now TIMEOUT_MINUTES))
  rw [trimChars_formatDT, parseDT_formatDT (addMinutes_TIMEOUT_valid hV hy)]

/-- Claim C10, witness: the theorem applied at a concrete grant instant
that rolls the expiry over a month boundary. -/
theorem claim_C10_witness :
    (enable_file_sharing ⟨2025, 6, 30, 23, 55, 0, 42⟩ (mkState RecordFile.absent)).record
      = RecordFile.content
          (String.mk (formatDT (addMinutes ⟨2025, 6, 30, 23, 55, 0, 42⟩ TIMEOUT_MINUTES))) ∧
    parseDT (trimChars
        (String.mk (formatDT (addMinutes ⟨2025, 6, 30, 23, 55, 0, 42⟩ TIMEOUT_MINUTES))).data)
      = some (truncSec (addMinutes ⟨2025, 6, 30, 23, 55, 0, 42⟩ TIMEOUT_MINUTES)) :=
  claim_C10_theorem ⟨2025, 6, 30, 23, 55, 0, 42⟩ (mkState RecordFile.absent)
    (by decide) (by decide)

end NFCShare
